import Mathlib

/-!
Shallow embedding of the `termiflow` terminal-dashboard sources:
- `ui/model.go` (Composer/Runtime: tabbed pane multiplexer),
- `ui/shell/model.go` (Shell pane: line-oriented interpreter with `cd`),
- `ui/jira/model.go` (Jira IssueList pane),
- `ui/github/model.go` (GitHub IssueList pane),
- `ud/chat/model.go` + `ui/chat/tools.go` (ChatAgent pane with tool calls).

External collaborators (the OS, HTTP clients, the generative-model service,
the bubbletea/bubbles widget internals and lipgloss styling) are modelled as
explicit parameters collected in an `Env` record; styling is modelled by
injective tag wrappers. Go functions that can panic are embedded as
`Option`-returning functions where `none` models a Go panic (process abort).
-/

namespace TermiFlow

/-- JSON-like dynamic values: the model of Go's `map[string]any` /
`[]interface{}` world that `encoding/json` decodes into. `obj` keeps an
association list of fields (Go map reads of a missing key yield `nil`,
modelled as `JVal.null`). -/
inductive JVal where
  | null : JVal
  | bool : Bool → JVal
  | num : Int → JVal
  | str : String → JVal
  | arr : List JVal → JVal
  | obj : List (String × JVal) → JVal
deriving Repr

/-- Go map read `o[k]`: first binding wins, missing key yields `nil`. -/
def getField (o : List (String × JVal)) (k : String) : JVal :=
  match o.find? (fun f => f.1 = k) with
  | some f => f.2
  | none => JVal.null

mutual
/-- Model of `json.MarshalIndent` (an external `encoding/json` collaborator):
a compact JSON rendering; the exact whitespace of Go's indented output is
abstracted, only injectivity of the serialization matters to the claims. -/
def serializeJVal : JVal → String
  | .null => "null"
  | .bool b => if b then "true" else "false"
  | .num n => toString n
  | .str s => "\x22" ++ s ++ "\x22"
  | .arr xs => "[" ++ serializeArr xs ++ "]"
  | .obj fs => "\x7b" ++ serializeObj fs ++ "\x7d"

def serializeArr : List JVal → String
  | [] => ""
  | [x] => serializeJVal x
  | x :: y :: xs => serializeJVal x ++ ", " ++ serializeArr (y :: xs)

def serializeObj : List (String × JVal) → String
  | [] => ""
  | [f] => "\x22" ++ f.1 ++ "\x22: " ++ serializeJVal f.2
  | f :: g :: fs => "\x22" ++ f.1 ++ "\x22: " ++ serializeJVal f.2 ++ ", " ++ serializeObj (g :: fs)
end

/-- One HTTP response as seen after `client.Do` succeeded: status code,
status text, and the result of running the JSON decoder on the body
(`Except.error` = decode error), at the type the Go code decodes into. -/
structure HTTPResp (α : Type) where
  status : Nat
  statusText : String
  body : Except String α

/-- A reply part from the model service: `genai.Text` or
`genai.FunctionCall` (the source ignores call arguments by design). -/
inductive ChatPart where
  | text : String → ChatPart
  | functionCall : String → ChatPart
deriving Repr, DecidableEq

/-- The external world: every effectful collaborator the Go sources touch,
captured as data/oracles so the event handlers become pure functions.
`statIsDir p` models `os.Stat(p)` succeeding with `info.IsDir()`. -/
structure Env where
  /-- `os.Getwd` at shell construction. -/
  cwd : String
  /-- First component of `os.UserHomeDir()` (empty string when it errors;
  the source discards the error). -/
  homeDir : String
  /-- `os.Stat(p)` returns no error and `info.IsDir()`. -/
  statIsDir : String → Bool
  /-- `exec.Command(name, args...)` with `Dir` set, `CombinedOutput()`:
  `.ok` carries the combined output, `.error` the error text. -/
  execRun : String → List String → String → Except String String
  /-- `os.Getenv("GEMINI_API_KEY")`. -/
  geminiKey : String
  /-- Error from `genai.NewClient`, if any. -/
  geminiNewClientError : Option String
  /-- `chatSession.SendMessage`: the reply's candidate parts keyed by the
  sent text, or a transport error. -/
  sendTurn : String → Except String (List ChatPart)
  /-- `os.Getenv("GITHUB_REPO")` / `os.Getenv("GITHUB_TOKEN")`. -/
  githubRepoEnv : String
  githubTokenEnv : String
  /-- The chat GitHub tool's HTTP exchange: transport error or a response
  whose body decodes into `[]map[string]any` (array of objects). -/
  githubResp : Except String (HTTPResp (List (List (String × JVal))))
  /-- `os.Getenv` for the Jira credentials. -/
  jiraURL : String
  jiraEmail : String
  jiraToken : String
  /-- The chat Jira tool's HTTP exchange: body decodes into `map[string]any`. -/
  jiraResp : Except String (HTTPResp (List (String × JVal)))

/-! ## Events

One inductive for `tea.Msg`. Go routes by dynamic type; pane-specific
message types (`jira.issuesFetchedMsg`, `github.issuesFetchedMsg`,
`chat.responseMsg`, `chat.errMsg`, …) become distinct constructors. A key
event carries the string `tea.KeyMsg.String()` would produce ("enter",
"tab", "ctrl+c", …). Sizes are `Int` like Go's `int`. -/

/-- One Jira issue as decoded by the Jira pane's typed `JiraSearchResponse`. -/
structure JiraIssue where
  key : String
  summary : String
  statusName : String
deriving Repr, DecidableEq

/-- One GitHub issue as decoded by the GitHub pane's typed decoder. -/
structure GitHubIssue where
  number : Int
  title : String
  state : String
  userLogin : String
deriving Repr, DecidableEq

/-- `tea.Msg`, covering every message type the sources dispatch on. -/
inductive TeaMsg where
  | key : String → TeaMsg
  | windowSize : Int → Int → TeaMsg
  | jiraIssuesFetched : List JiraIssue → TeaMsg
  | jiraFetchErr : String → TeaMsg
  | githubIssuesFetched : List GitHubIssue → TeaMsg
  | githubFetchErr : String → TeaMsg
  | chatResponse : String → TeaMsg
  | chatErr : String → TeaMsg
deriving Repr, DecidableEq

/-! ## Styling and path helpers

lipgloss styles are external collaborators; a style's `Render` is modelled
as an injective tag wrapper. Path helpers model the `path/filepath` calls
the shell makes (on a Unix separator, without `Clean`'s `..` folding, which
no claim exercises). -/

/-- `errStyle.Render` (red error styling). -/
def errRender (s : String) : String := "<err>" ++ s ++ "</err>"

/-- `pathStyle.Render` (bold yellow path styling). -/
def pathRender (s : String) : String := "<path>" ++ s ++ "</path>"

/-- `unicode.IsSpace` restricted to the ASCII whitespace the claims use. -/
def goIsSpace (c : Char) : Bool :=
  c = ' ' || c = '\t' || c = '\n' || c = '\x0d' || c = '\x0b' || c = '\x0c'

/-- `strings.TrimSpace`. -/
def goTrimSpace (s : String) : String :=
  String.mk (((s.toList.dropWhile goIsSpace).reverse.dropWhile goIsSpace).reverse)

/-- Accumulator loop behind `goFields`: `acc` holds the current chunk's
characters in reverse. -/
def goFieldsAux : List Char → List Char → List String
  | [], acc => if acc = [] then [] else [String.mk acc.reverse]
  | c :: cs, acc =>
    if goIsSpace c then
      if acc = [] then goFieldsAux cs []
      else String.mk acc.reverse :: goFieldsAux cs []
    else goFieldsAux cs (c :: acc)

/-- `strings.Fields`: the whitespace-separated nonempty chunks. -/
def goFields (s : String) : List String := goFieldsAux s.toList []

/-- `filepath.IsAbs` on Unix: the path starts with a slash. -/
def isAbs (p : String) : Bool :=
  match p.toList with
  | '/' :: _ => true
  | _ => false

/-- `filepath.Join` of two components (without the `Clean` normalization,
which no reachable claim input needs). -/
def joinPath (a b : String) : String :=
  if a = "" then b else if b = "" then a else a ++ "/" ++ b

/-- `filepath.Base`: last path element after stripping trailing slashes;
`""` gives `"."`, an all-slash path gives `"/"`. -/
def baseName (p : String) : String :=
  if p = "" then "."
  else
    let chars := (p.toList.reverse.dropWhile (fun c => c = '/')).reverse
    if chars = [] then "/"
    else String.mk ((chars.reverse.takeWhile (fun c => c ≠ '/')).reverse)

/-! ## Shell pane (`ui/shell/model.go`)

The textinput/viewport widgets are external; their model-relevant state
(current input value, viewport content and dimensions) is inlined. The
viewport's `View()` used when rebuilding the transcript is modelled as the
stored content. `none` models a Go panic. -/

structure ShellModel where
  /-- Viewport content: the transcript. -/
  viewportContent : String
  viewportWidth : Int
  viewportHeight : Int
  /-- Current textinput value. -/
  textInputValue : String
  textInputWidth : Int
  currentDir : String
deriving Repr, DecidableEq

/-- `shell.New()`: `viewport.New(30, 20)`, `ti.Width = 20`, cwd from `os.Getwd`. -/
def ShellModel.New (env : Env) : ShellModel :=
  { viewportContent := "Welcome to TermiFlow Shell!\nCurrent Directory: " ++ env.cwd ++ "\n"
    viewportWidth := 30
    viewportHeight := 20
    textInputValue := ""
    textInputWidth := 20
    currentDir := env.cwd }

/-- `(m Model) executeCommand(input) (string, string)` from
`ui/shell/model.go`. Returns `(output, newDirectory)`; `none` models the Go
panic that `cmdArgs[0]` raises on an empty argument slice in the `cd` error
branch. -/
def ShellModel.executeCommand (env : Env) (m : ShellModel) (input : String) :
    Option (String × String) :=
  if goTrimSpace input = "" then some ("", "")
  else
    match goFields input with
    | [] => none
    | cmdName :: cmdArgs =>
      if cmdName = "cd" then
        let targetBase :=
          match cmdArgs with
          | a :: _ => a
          | [] => env.homeDir
        let targetDir :=
          if isAbs targetBase then targetBase else joinPath m.currentDir targetBase
        if env.statIsDir targetDir then some ("", targetDir)
        else
          match cmdArgs with
          | a :: _ => some (errRender ("cd: " ++ a ++ ": No such directory"), "")
          | [] => none
      else
        match env.execRun cmdName cmdArgs m.currentDir with
        | .error e => some (errRender ("Error: " ++ e), "")
        | .ok out => some (out, "")

/-- `(m Model) Update(msg)` of the shell pane. Widget-internal reactions of
textinput/viewport (cursor blink etc.) are abstracted; the Enter handler and
the `WindowSizeMsg` branch are the source's. -/
def ShellModel.Update (env : Env) (m : ShellModel) : TeaMsg → Option ShellModel
  | .key "enter" =>
    let cmdStr := m.textInputValue
    let m1 : ShellModel := { m with textInputValue := "" }
    match m1.executeCommand env cmdStr with
    | none => none
    | some (output, newDir) =>
      let m2 : ShellModel :=
        if newDir ≠ "" then { m1 with currentDir := newDir } else m1
      let prompt := pathRender (baseName m2.currentDir) ++ " $ " ++ cmdStr
      some { m2 with
              viewportContent := m2.viewportContent ++ "\n" ++ prompt ++ "\n" ++ output }
  | .windowSize w h =>
    some { m with viewportWidth := w, textInputWidth := w, viewportHeight := h - 3 }
  | _ => some m

/-! ## Jira IssueList pane (`ui/jira/model.go`)

The bubbles `list.Model` widget is external; its model-relevant state is
the item slice set by `SetItems` and the size set by `SetSize`. -/

/-- One `list.Item` (`item{title, desc}` in both issue panes). -/
structure ListItem where
  title : String
  desc : String
deriving Repr, DecidableEq

structure JiraModel where
  items : List ListItem
  width : Int
  height : Int
  loading : Bool
  err : Option String
deriving Repr, DecidableEq

/-- `jira.New()`: starts with the single "Setup Required" placeholder item,
`list.New(…, 0, 0)`. -/
def JiraModel.New : JiraModel :=
  { items := [⟨"Setup Required", "Please set JIRA_URL, JIRA_EMAIL, JIRA_TOKEN"⟩]
    width := 0
    height := 0
    loading := false
    err := none }

/-- `(m *Model) SetSize(width, height)` → `m.list.SetSize`. -/
def JiraModel.SetSize (m : JiraModel) (w h : Int) : JiraModel :=
  { m with width := w, height := h }

/-- `(m Model) Update(msg)` of the Jira pane (inner `list.Update` widget
reactions abstracted; it returns only widget commands). -/
def JiraModel.Update (m : JiraModel) : TeaMsg → JiraModel
  | .windowSize w h => { m with width := w, height := h }
  | .jiraIssuesFetched issues =>
    let items := issues.map (fun issue =>
      ListItem.mk (issue.key ++ " " ++ issue.summary) ("Status: " ++ issue.statusName))
    if items.length > 0 then { m with items := items, loading := false }
    else
      { m with
          items := [⟨"No issues found", "You have no assigned issues."⟩]
          loading := false }
  | .jiraFetchErr e =>
    { m with err := some e, loading := false, items := [⟨"Error", e⟩] }
  | _ => m

/-! ## GitHub IssueList pane (`ui/github/model.go`) -/

structure GithubModel where
  items : List ListItem
  width : Int
  height : Int
  loading : Bool
  err : Option String
deriving Repr, DecidableEq

/-- `github.New()`: `list.New([]list.Item{}, …, 0, 0)` — an empty item list. -/
def GithubModel.New : GithubModel :=
  { items := []
    width := 0
    height := 0
    loading := false
    err := none }

/-- `(m *Model) SetSize(width, height)`. -/
def GithubModel.SetSize (m : GithubModel) (w h : Int) : GithubModel :=
  { m with width := w, height := h }

/-- `(m Model) Update(msg)` of the GitHub pane. On a fetched message it
`SetItems` whatever the loop built — for zero issues that is the nil slice,
i.e. an empty list; the error branch sets only `err` and `loading`. -/
def GithubModel.Update (m : GithubModel) : TeaMsg → GithubModel
  | .windowSize w h => { m with width := w, height := h }
  | .githubIssuesFetched issues =>
    let items := issues.map (fun issue =>
      ListItem.mk ("#" ++ toString issue.number ++ " " ++ issue.title)
        ("by " ++ issue.userLogin ++ " [" ++ issue.state ++ "]"))
    { m with items := items, loading := false }
  | .githubFetchErr e => { m with err := some e, loading := false }
  | _ => m

/-! ## Chat tools (`ui/chat/tools.go`)

`getGitHubIssues` / `getJiraIssues` after the HTTP exchange supplied by
`Env`. `none` models a Go panic from an unchecked type assertion. -/

/-- `getGitHubIssues() (map[string]any, error)`. The decode target
`[]map[string]any` is already enforced by `Env.githubResp`; the unchecked
assertion `i["user"].(map[string]any)` panics (`none`) when an issue object
has no object-valued `user` field. -/
def getGitHubIssues (env : Env) : Option (Except String JVal) :=
  match env.githubResp with
  | .error e => some (.error e)
  | .ok r =>
    if r.status ≠ 200 then some (.error ("GitHub API Error: " ++ r.statusText))
    else
      match r.body with
      | .error e => some (.error e)
      | .ok issues =>
        let simplified : Option (List JVal) :=
          issues.mapM (fun i =>
            match getField i "user" with
            | .obj u =>
              some (JVal.obj
                [("number", getField i "number"),
                 ("title", getField i "title"),
                 ("user", getField u "login"),
                 ("state", getField i "state")])
            | _ => none)
        match simplified with
        | none => none
        | some xs => some (.ok (JVal.obj [("issues", JVal.arr xs)]))

/-- `getJiraIssues() (map[string]any, error)`. The post-decode "Simplify"
block uses the unchecked assertions `result["issues"].([]interface{})`,
`i.(map[string]interface{})`, `issue["fields"].(…)` and
`fields["status"].(…)`; each failing assertion panics (`none`). -/
def getJiraIssues (env : Env) : Option (Except String JVal) :=
  if env.jiraURL = "" || env.jiraEmail = "" || env.jiraToken = "" then
    some (.error "Jira credentials not set (JIRA_URL, JIRA_EMAIL, JIRA_TOKEN)")
  else
    match env.jiraResp with
    | .error e => some (.error e)
    | .ok r =>
      if r.status ≠ 200 then some (.error ("Jira API Error: " ++ r.statusText))
      else
        match r.body with
        | .error e => some (.error e)
        | .ok result =>
          match getField result "issues" with
          | .arr issues =>
            let simplified : Option (List JVal) :=
              issues.mapM (fun i =>
                match i with
                | .obj issue =>
                  match getField issue "fields" with
                  | .obj fields =>
                    match getField fields "status" with
                    | .obj st =>
                      some (JVal.obj
                        [("key", getField issue "key"),
                         ("summary", getField fields "summary"),
                         ("status", getField st "name")])
                    | _ => none
                  | _ => none
                | _ => none)
            match simplified with
            | none => none
            | some xs => some (.ok (JVal.obj [("issues", JVal.arr xs)]))
          | _ => none

/-! ## ChatAgent pane (`ui/chat/model.go`) -/

/-- `chat.Message` (a conversation Turn): role ∈ user/model/system. -/
structure ChatMessage where
  role : String
  content : String
deriving Repr, DecidableEq

/-- The chat pane's model. The `*genai.Client` / `*genai.ChatSession`
pointers are modelled by their nil-ness, which is all the source branches
on; textarea/viewport widget internals are inlined as value and sizes. -/
structure ChatModel where
  viewportContent : String
  vpWidth : Int
  vpHeight : Int
  textareaValue : String
  taWidth : Int
  taHeight : Int
  messages : List ChatMessage
  /-- `m.client != nil`. -/
  clientSet : Bool
  /-- `m.chatSession != nil`. -/
  chatSessionSet : Bool
  initialized : Bool
deriving Repr, DecidableEq

/-- `chat.New()`: textarea 50×3, viewport 50×10, welcome banner, no client. -/
def ChatModel.New : ChatModel :=
  { viewportContent :=
      "Welcome to The Bridge Chat! 🤖\nType a message and press Enter to chat with Gemini.\n"
    vpWidth := 50
    vpHeight := 10
    textareaValue := ""
    taWidth := 50
    taHeight := 3
    messages := []
    clientSet := false
    chatSessionSet := false
    initialized := false }

/-- `(m *Model) ensureClient() error`: lazily constructs the genai client,
model and chat session; returns the model (possibly updated) and the error. -/
def ChatModel.ensureClient (env : Env) (m : ChatModel) : ChatModel × Option String :=
  if m.clientSet then (m, none)
  else if env.geminiKey = "" then
    (m, some "GEMINI_API_KEY environment variable not set")
  else
    match env.geminiNewClientError with
    | some e => (m, some e)
    | none => ({ m with clientSet := true, chatSessionSet := true, initialized := true }, none)

/-- The string-builder loop of `(m *Model) updateViewport()`. -/
def renderMessages (msgs : List ChatMessage) : String :=
  msgs.foldl
    (fun sb msg =>
      if msg.role = "user" then sb ++ "\nYou: " ++ msg.content ++ "\n"
      else if msg.role = "model" then sb ++ "Gemini: " ++ msg.content ++ "\n"
      else sb ++ msg.content ++ "\n")
    ""

/-- `(m *Model) updateViewport()`: rebuilds the viewport content when there
is at least one message (and scrolls to bottom, a widget effect). -/
def ChatModel.updateViewport (m : ChatModel) : ChatModel :=
  if m.messages.length > 0 then { m with viewportContent := renderMessages m.messages }
  else m

/-- The `responseBuilder` loop body over one reply part (source lines in
`sendMessage`): text parts are appended verbatim; a function call to a
catalog tool runs it and appends either the serialized output block or an
execution-error block; an unknown tool name appends an "[Unknown tool]"
note. `none` propagates a tool panic. -/
def processPart (env : Env) (acc : String) : ChatPart → Option String
  | .text s => some (acc ++ s)
  | .functionCall name =>
    if name = "get_github_issues" || name = "get_jira_issues" then
      let run := if name = "get_github_issues" then getGitHubIssues env else getJiraIssues env
      match run with
      | none => none
      | some (.error e) =>
        some (acc ++ "\n[Error executing " ++ name ++ ": " ++ e ++ "]\n")
      | some (.ok res) =>
        some (acc ++ "\n[Tool " ++ name ++ " Output]:\n" ++ serializeJVal res ++ "\n")
    else some (acc ++ "\n[Unknown tool: " ++ name ++ "]\n")

/-- The whole part-processing loop of `sendMessage`. -/
def processParts (env : Env) (parts : List ChatPart) : Option String :=
  parts.foldlM (processPart env) ""

/-- The message the chat pane's Update reacts to. -/
inductive ChatCmdMsg where
  | response : String → ChatCmdMsg
  | errored : String → ChatCmdMsg
deriving Repr, DecidableEq

/-- What `(m Model) sendMessage(msg) tea.Cmd`'s closure produces when the
Executor runs it: the `responseMsg`/`errMsg` it returns, with `none` for a
panic inside a tool. Mirrors the source's checks in order: missing API key,
nil chat session, transport error, empty candidates/parts, then the part
loop. -/
def ChatModel.sendMessageResult (env : Env) (m : ChatModel) (msg : String) :
    Option ChatCmdMsg :=
  if env.geminiKey = "" then some (.errored "GEMINI_API_KEY not set")
  else if ¬ m.chatSessionSet then some (.errored "Chat session not initialized")
  else
    match env.sendTurn msg with
    | .error e => some (.errored e)
    | .ok parts =>
      if parts.length = 0 then some (.errored "empty response")
      else
        match processParts env parts with
        | none => none
        | some s => some (.response s)

/-- The one command kind the chat pane issues: a model-send. -/
inductive ChatCmd where
  | send : String → ChatCmd
deriving Repr, DecidableEq

/-- `(m Model) Update(msg)` of the chat pane. Widget blink commands are
abstracted; the returned command is the `m.sendMessage(userMsg)` model-send
when one is issued. `responseMsg`/`errMsg` arrive as
`TeaMsg.chatResponse`/`TeaMsg.chatErr`. -/
def ChatModel.Update (env : Env) (m : ChatModel) : TeaMsg → ChatModel × Option ChatCmd
  | .key "enter" =>
    if m.textareaValue = "" then (m, none)
    else
      let userMsg := m.textareaValue
      match m.ensureClient env with
      | (m1, some e) =>
        let m2 := { m1 with
                      messages := m1.messages ++ [ChatMessage.mk "system" ("Error: " ++ e)] }
        let m3 := m2.updateViewport
        ({ m3 with textareaValue := "" }, none)
      | (m1, none) =>
        let m2 := { m1 with messages := m1.messages ++ [ChatMessage.mk "user" userMsg] }
        let m3 := m2.updateViewport
        ({ m3 with textareaValue := "" }, some (.send userMsg))
  | .chatResponse s =>
    let m1 := { m with messages := m.messages ++ [ChatMessage.mk "model" s] }
    (m1.updateViewport, none)
  | .chatErr e =>
    let m1 := { m with messages := m.messages ++ [ChatMessage.mk "system" ("Error: " ++ e)] }
    (m1.updateViewport, none)
  | _ => (m, none)

/-- `(m *Model) SetSize(w, h)` of the chat pane. -/
def ChatModel.SetSize (m : ChatModel) (w h : Int) : ChatModel :=
  { m with taWidth := w, vpWidth := w, vpHeight := h - m.taHeight - 2 }

/-! ## Composer/Runtime (`ui/model.go`)

`sessionState` is Go's `int` (`viewShell`=0, `viewJira`=1, `viewGitHub`=2,
`viewChat`=3); the tab rotation computes `(m.state + 1) % len(m.tabs)`, so
the state is kept as a plain `Nat` here. -/

/-- The aggregate command a composer step forwards to the executor. -/
inductive UICmd where
  | quit : UICmd
  | chatSend : ChatCmd → UICmd
deriving Repr, DecidableEq

structure UIModel where
  state : Nat
  tabs : List String
  shell : ShellModel
  jira : JiraModel
  github : GithubModel
  chat : ChatModel
  width : Int
  height : Int
deriving Repr, DecidableEq

/-- `ui.New()`. -/
def UIModel.New (env : Env) : UIModel :=
  { state := 0
    tabs := ["Shell", "Jira", "GitHub", "Chat"]
    shell := ShellModel.New env
    jira := JiraModel.New
    github := GithubModel.New
    chat := ChatModel.New
    width := 0
    height := 0 }

/-- The trailing "Update the active model" switch of `ui.Update`: routes
`msg` to the pane selected by `m.state` and forwards that pane's command.
`none` propagates a pane panic. Pane indices outside 0–3 match no case
(unreachable from `New`). -/
def UIModel.routeToActive (env : Env) (m : UIModel) (msg : TeaMsg) :
    Option (UIModel × Option UICmd) :=
  if m.state = 0 then
    match m.shell.Update env msg with
    | none => none
    | some s => some ({ m with shell := s }, none)
  else if m.state = 1 then some ({ m with jira := m.jira.Update msg }, none)
  else if m.state = 2 then some ({ m with github := m.github.Update msg }, none)
  else if m.state = 3 then
    let r := m.chat.Update env msg
    some ({ m with chat := r.1 }, r.2.map UICmd.chatSend)
  else some (m, none)

/-- `(m Model) Update(msg)` of the Composer: ctrl+c quits, tab rotates the
active index and returns early, a resize stores the dimensions and calls
`SetSize` on the Jira/GitHub/Chat panes with `contentHeight = h - 5`; every
message except ctrl+c/tab is then routed to the active pane. -/
def UIModel.Update (env : Env) (m : UIModel) (msg : TeaMsg) :
    Option (UIModel × Option UICmd) :=
  match msg with
  | .key k =>
    if k = "ctrl+c" then some (m, some UICmd.quit)
    else if k = "tab" then
      some ({ m with state := (m.state + 1) % m.tabs.length }, none)
    else m.routeToActive env msg
  | .windowSize w h =>
    let contentHeight := h - 5
    let m1 := { m with
                  width := w
                  height := h
                  jira := m.jira.SetSize w contentHeight
                  github := m.github.SetSize w contentHeight
                  chat := m.chat.SetSize w contentHeight }
    m1.routeToActive env msg
  | _ => m.routeToActive env msg

/-! ## Concrete environments and states used by witnesses and counterexamples -/

/-- A concrete world: cwd `/work`, home `/home/u` (both existing
directories), Gemini key set, a model reply that calls the GitHub tool, a
well-formed GitHub issues payload, and a Jira tool payload whose `issues`
field is a number instead of an array (a malformed shape). -/
def envDemo : Env :=
  { cwd := "/work"
    homeDir := "/home/u"
    statIsDir := fun p => p == "/work" || p == "/home/u"
    execRun := fun _ _ _ => .ok ""
    geminiKey := "k"
    geminiNewClientError := none
    sendTurn := fun _ => .ok [ChatPart.functionCall "get_github_issues"]
    githubRepoEnv := ""
    githubTokenEnv := ""
    githubResp := .ok
      ⟨200, "200 OK",
       .ok [[("number", .num 1), ("title", .str "t"),
             ("user", .obj [("login", .str "octo")]), ("state", .str "open")]]⟩
    jiraURL := "https://jira.example"
    jiraEmail := "e@example.com"
    jiraToken := "t"
    jiraResp := .ok ⟨200, "200 OK", .ok [("issues", .num 42)]⟩ }

/-- Like `envDemo` but the user's home directory does not exist
(e.g. `HOME` points at a deleted path). -/
def envNoHome : Env := { envDemo with homeDir := "/home/nope" }

/-- Like `envDemo` but the GitHub issues payload is an array whose issue
object has no `user` field — well-formed JSON of an unexpected shape. -/
def envGithubNoUser : Env :=
  { envDemo with githubResp := .ok ⟨200, "200 OK", .ok [[("number", .num 1)]]⟩ }

/-- A chat pane whose lazy client/session are initialized and whose
textarea holds a nonempty line, ready to submit. -/
def chatReady : ChatModel :=
  { ChatModel.New with clientSet := true, chatSessionSet := true,
                       textareaValue := "list issues" }

/-- The exact response string the chat pane builds for the successful
GitHub tool call of `envDemo`. -/
def c2ToolBlock : String :=
  "\n[Tool get_github_issues Output]:\n"
    ++ serializeJVal (JVal.obj
        [("issues", JVal.arr
          [JVal.obj [("number", JVal.num 1), ("title", JVal.str "t"),
                     ("user", JVal.str "octo"), ("state", JVal.str "open")]])])
    ++ "\n"

/-- A shell pane whose textinput holds only whitespace. -/
def shellWS : ShellModel := { ShellModel.New envDemo with textInputValue := "  " }

/-- A shell pane about to `cd` to a nonexistent path. -/
def shellCdMissing : ShellModel :=
  { ShellModel.New envDemo with textInputValue := "cd /nope" }

/-- A shell pane about to run `cd` with no argument. -/
def shellCdHome : ShellModel := { ShellModel.New envDemo with textInputValue := "cd" }

/-! ## Claim theorems -/

/-- C1, counterexample: the claim says a Message produced by a completed
Command is delivered to the pane that originated the Command regardless of
the active pane. On the code, a Jira fetch completion
(`jiraIssuesFetched []`) arriving while the Shell pane (index 0) is active
leaves the Jira pane untouched — still showing its initial "Setup Required"
item — even though delivering the same message to the Jira pane would have
replaced its items with the "No issues found" entry. -/
theorem c1_counterexample_not_delivered_to_originator :
    ((UIModel.Update envDemo (UIModel.New envDemo) (TeaMsg.jiraIssuesFetched [])).map
      (fun r => r.1.jira)) = some JiraModel.New
    ∧ JiraModel.Update JiraModel.New (TeaMsg.jiraIssuesFetched []) ≠ JiraModel.New := by
  refine ⟨rfl, ?_⟩
  decide

/-- C2 (code bug, deliberate per the spec's §9 note): on a reply containing
a call to the known tool `get_github_issues` whose invocation succeeds, the
code serializes the tool output into a single `responseMsg`, whose
application appends one `model` Turn carrying the raw tool output and
issues **no** further model-send Command — the exchange terminates on the
bare tool-output Turn instead of resuming the conversation. -/
theorem c2_tool_result_not_resent :
    ChatModel.sendMessageResult envDemo chatReady "list issues"
      = some (ChatCmdMsg.response c2ToolBlock)
    ∧ (ChatModel.Update envDemo chatReady (TeaMsg.chatResponse c2ToolBlock)).2 = none
    ∧ (ChatModel.Update envDemo chatReady (TeaMsg.chatResponse c2ToolBlock)).1.messages.getLast?
        = some (ChatMessage.mk "model" c2ToolBlock) :=
  ⟨rfl, rfl, rfl⟩

/-- C3, counterexample: the claim says that while a model-send Command is
pending, submitting further text issues no second model-send Command. On
the code, submitting `"list issues"` issues a send, and — with no reply
delivered in between — typing `"and again"` and submitting immediately
issues a second send: there is no in-flight guard. -/
theorem c3_counterexample_second_submit_also_sends :
    (ChatModel.Update envDemo chatReady (TeaMsg.key "enter")).2
      = some (ChatCmd.send "list issues")
    ∧ (ChatModel.Update envDemo
        { (ChatModel.Update envDemo chatReady (TeaMsg.key "enter")).1 with
            textareaValue := "and again" }
        (TeaMsg.key "enter")).2 = some (ChatCmd.send "and again") :=
  ⟨rfl, rfl⟩

/-- C5 (code bug): the claim (and §7 of the spec) requires every failure
inside a Command's work — including an unexpectedly shaped response
payload — to become a descriptive error Message. The unchecked type
assertions in the chat tools panic instead: a Jira payload whose `issues`
field is a number, and a GitHub payload whose issue object lacks a `user`
object, both abort (`none` models the Go panic) rather than producing an
error result. -/
theorem c5_malformed_payload_panics :
    getJiraIssues envDemo = none ∧ getGitHubIssues envGithubNoUser = none :=
  ⟨rfl, rfl⟩

/-- C6, counterexample: the claim says every IssueList pane renders exactly
one "no items" entry on a zero-item fetch. The GitHub pane's fetched-branch
sets whatever the loop built — for zero issues the empty slice — so its
item list is empty, not a single "no items" entry. -/
theorem c6_counterexample_github_empty_fetch_renders_empty :
    (GithubModel.Update GithubModel.New (TeaMsg.githubIssuesFetched [])).items = []
    ∧ (GithubModel.Update GithubModel.New (TeaMsg.githubIssuesFetched [])).items.length ≠ 1 := by
  refine ⟨rfl, ?_⟩
  decide

/-- C6 as amended: on a zero-item fetch the **Jira** pane renders exactly
one "No issues found" entry, while the **GitHub** pane renders an empty
list (it has no zero-item special case). -/
theorem c6_amended_empty_fetch_rendering (m : JiraModel) (m2 : GithubModel) :
    (JiraModel.Update m (TeaMsg.jiraIssuesFetched [])).items
      = [ListItem.mk "No issues found" "You have no assigned issues."]
    ∧ (GithubModel.Update m2 (TeaMsg.githubIssuesFetched [])).items = [] :=
  ⟨rfl, rfl⟩

/-- C7, counterexample: the claim says an empty or whitespace-only input
line is a complete no-op with no transcript line appended. On the code,
pressing Enter on an empty textinput still appends a prompt line (and an
empty output line) to the transcript: the viewport content changes. -/
theorem c7_counterexample_empty_input_appends_prompt :
    ((ShellModel.Update envDemo (ShellModel.New envDemo) (TeaMsg.key "enter")).map
      (fun s => s.viewportContent))
      ≠ some (ShellModel.New envDemo).viewportContent := by
  decide

/-- C10 (code bug): the claim — backed by the spec's "never a crash"
requirements — says `executeCommand` is total. But `cd` with no argument
when the resolved home directory does not exist takes the error branch,
which renders `cmdArgs[0]` on the empty argument slice: an index
out-of-range panic (`none`). The input is `"cd"` with `HOME=/home/nope`
nonexistent. -/
theorem c10_cd_no_arg_panics :
    ShellModel.executeCommand envNoHome (ShellModel.New envNoHome) "cd" = none
    ∧ ShellModel.Update envNoHome
        { ShellModel.New envNoHome with textInputValue := "cd" }
        (TeaMsg.key "enter") = none :=
  ⟨rfl, rfl⟩

/-- C1 as amended: the Composer delivers every completed-Command Message to
the **currently active** pane only — the originating pane receives it only
when it happens to be active — and since each pane reacts only to its own
message types, the resulting model changes at most in the active pane's
slot. Window-resize is the separate broadcast path. Stated for all six
command-result message kinds. -/
theorem c1_amended_message_routed_to_active_pane (env : Env) (m : UIModel)
    (xs : List JiraIssue) (ys : List GitHubIssue) (e1 e2 s e3 : String) :
    UIModel.Update env m (TeaMsg.jiraIssuesFetched xs)
      = some ({ m with jira := if m.state = 1
                  then m.jira.Update (TeaMsg.jiraIssuesFetched xs) else m.jira }, none)
    ∧ UIModel.Update env m (TeaMsg.jiraFetchErr e1)
      = some ({ m with jira := if m.state = 1
                  then m.jira.Update (TeaMsg.jiraFetchErr e1) else m.jira }, none)
    ∧ UIModel.Update env m (TeaMsg.githubIssuesFetched ys)
      = some ({ m with github := if m.state = 2
                  then m.github.Update (TeaMsg.githubIssuesFetched ys) else m.github }, none)
    ∧ UIModel.Update env m (TeaMsg.githubFetchErr e2)
      = some ({ m with github := if m.state = 2
                  then m.github.Update (TeaMsg.githubFetchErr e2) else m.github }, none)
    ∧ UIModel.Update env m (TeaMsg.chatResponse s)
      = some ({ m with chat := if m.state = 3
                  then (m.chat.Update env (TeaMsg.chatResponse s)).1 else m.chat }, none)
    ∧ UIModel.Update env m (TeaMsg.chatErr e3)
      = some ({ m with chat := if m.state = 3
                  then (m.chat.Update env (TeaMsg.chatErr e3)).1 else m.chat }, none) := by
  refine ⟨?_, ?_, ?_, ?_, ?_, ?_⟩ <;>
    · simp only [UIModel.Update, UIModel.routeToActive]
      split_ifs <;> first | rfl | omega

/-- C4, counterexample: the claim says every pane's stored size — the Shell
pane included — reflects the latest resize. With the Jira pane active
(one tab-advance from the initial state), a resize to 100×40 leaves the
Shell pane's stored viewport size at its initial 30×20. -/
theorem c4_counterexample_shell_size_stale :
    ((UIModel.Update envDemo (UIModel.New envDemo) (TeaMsg.key "tab")).bind
      (fun r => (UIModel.Update envDemo r.1 (TeaMsg.windowSize 100 40)).map
        (fun r2 => (r2.1.shell.viewportWidth, r2.1.shell.viewportHeight))))
      = some (30, 20)
    ∧ ((30 : Int), (20 : Int)) ≠ (100, 40) := by
  refine ⟨rfl, ?_⟩
  decide

/-- C4 as amended: a resize stores the new dimensions and pushes sizes to
the Jira, GitHub and Chat panes (content height `h − 5`; the active issue
pane is then overwritten with the full `h` by its own `WindowSizeMsg`
branch), but the Shell pane's stored size is updated **only when the Shell
pane is active** during the resize. -/
theorem c4_amended_resize_updates_sizes (env : Env) (m : UIModel) (w h : Int) :
    UIModel.Update env m (TeaMsg.windowSize w h)
      = some ({ m with
                  width := w
                  height := h
                  shell := if m.state = 0 then
                      { m.shell with viewportWidth := w, textInputWidth := w,
                                     viewportHeight := h - 3 }
                    else m.shell
                  jira := { m.jira with width := w,
                                        height := if m.state = 1 then h else h - 5 }
                  github := { m.github with width := w,
                                            height := if m.state = 2 then h else h - 5 }
                  chat := { m.chat with taWidth := w, vpWidth := w,
                                        vpHeight := h - 5 - m.chat.taHeight - 2 } },
              none) := by
  simp only [UIModel.Update, UIModel.routeToActive, JiraModel.SetSize, GithubModel.SetSize,
    ChatModel.SetSize]
  split_ifs <;> first | rfl | omega

/-- C3 as amended: the ChatAgent enforces no at-most-one-in-flight
discipline — **every** submit of a nonempty line with the client available
issues a model-send Command carrying that line (and appends the user Turn),
regardless of any still-pending send. -/
theorem c3_amended_every_nonempty_submit_sends (env : Env) (m : ChatModel)
    (hne : m.textareaValue ≠ "") (hc : m.clientSet = true) :
    (ChatModel.Update env m (TeaMsg.key "enter")).2 = some (ChatCmd.send m.textareaValue)
    ∧ (ChatModel.Update env m (TeaMsg.key "enter")).1.messages
        = m.messages ++ [ChatMessage.mk "user" m.textareaValue] := by
  have h1 : ChatModel.ensureClient env m = (m, none) := by
    simp [ChatModel.ensureClient, hc]
  refine ⟨?_, ?_⟩
  all_goals
    simp only [ChatModel.Update, if_neg hne, h1, ChatModel.updateViewport]
  all_goals
    first
    | rfl
    | (split <;> rfl)

/-- C3 amended claim instantiated: the ready chat pane holds the nonempty
line "list issues" with the client set, and submitting it issues the
model-send Command and appends the user Turn. -/
theorem c3_amended_every_nonempty_submit_sends_witness :
    chatReady.textareaValue ≠ "" ∧ chatReady.clientSet = true
    ∧ ((ChatModel.Update envDemo chatReady (TeaMsg.key "enter")).2
          = some (ChatCmd.send chatReady.textareaValue)
        ∧ (ChatModel.Update envDemo chatReady (TeaMsg.key "enter")).1.messages
          = chatReady.messages ++ [ChatMessage.mk "user" chatReady.textareaValue]) :=
  ⟨by decide, rfl,
   c3_amended_every_nonempty_submit_sends envDemo chatReady (by decide) rfl⟩

/-- C7 as amended: an empty or whitespace-only submitted line executes
nothing and leaves `currentDir` (and all other shell state) unchanged, but
the Enter handler still appends a prompt line — `"<basename> $ <input>"` —
followed by an empty output line to the transcript. -/
theorem c7_amended_whitespace_input_appends_prompt_line (env : Env) (m : ShellModel)
    (hw : goTrimSpace m.textInputValue = "") :
    ShellModel.Update env m (TeaMsg.key "enter")
      = some { m with
                 textInputValue := ""
                 viewportContent := m.viewportContent ++ "\n"
                   ++ pathRender (baseName m.currentDir) ++ " $ " ++ m.textInputValue
                   ++ "\n" } := by
  have h1 : ShellModel.executeCommand env { m with textInputValue := "" } m.textInputValue
      = some ("", "") := by
    simp [ShellModel.executeCommand, hw]
  simp only [ShellModel.Update, h1, ne_eq, not_true_eq_false, if_neg, ite_false,
    String.append_empty, not_false_eq_true, reduceIte, String.append_assoc]

/-- C7 amended claim instantiated at a whitespace-only input `"  "`. -/
theorem c7_amended_whitespace_input_appends_prompt_line_witness :
    goTrimSpace shellWS.textInputValue = ""
    ∧ ShellModel.Update envDemo shellWS (TeaMsg.key "enter")
      = some { shellWS with
                 textInputValue := ""
                 viewportContent := shellWS.viewportContent ++ "\n"
                   ++ pathRender (baseName shellWS.currentDir) ++ " $ "
                   ++ shellWS.textInputValue ++ "\n" } :=
  ⟨rfl, c7_amended_whitespace_input_appends_prompt_line envDemo shellWS rfl⟩

/-- An absolute path is nonempty (it starts with a slash). -/
theorem isAbs_ne_empty (p : String) (h : isAbs p = true) : p ≠ "" := by
  intro he
  subst he
  exact absurd h (by decide)

/-- C8: `cd` to a path that fails the stat-is-directory check leaves
`currentDir` unchanged and appends, after the prompt line, exactly the one
error-styled line `cd: <arg>: No such directory` (the err-rendered segment
contains the only error styling in the appended text); and `cd` with no
argument resolves its target to the user's home directory — when the home
path is absolute and an existing directory, the pane changes into it and
appends no output beyond the prompt line. -/
theorem c8_cd_missing_dir_and_home_resolution :
    (∀ (env : Env) (m : ShellModel) (arg : String),
      goFields m.textInputValue = ["cd", arg] →
      goTrimSpace m.textInputValue ≠ "" →
      env.statIsDir (if isAbs arg then arg else joinPath m.currentDir arg) = false →
      ShellModel.Update env m (TeaMsg.key "enter")
        = some { m with
                   textInputValue := ""
                   viewportContent := m.viewportContent ++ "\n"
                     ++ pathRender (baseName m.currentDir) ++ " $ " ++ m.textInputValue
                     ++ "\n" ++ errRender ("cd: " ++ arg ++ ": No such directory") })
    ∧ (∀ (env : Env) (m : ShellModel),
      goFields m.textInputValue = ["cd"] →
      goTrimSpace m.textInputValue ≠ "" →
      isAbs env.homeDir = true →
      env.statIsDir env.homeDir = true →
      ShellModel.Update env m (TeaMsg.key "enter")
        = some { m with
                   textInputValue := ""
                   currentDir := env.homeDir
                   viewportContent := m.viewportContent ++ "\n"
                     ++ pathRender (baseName env.homeDir) ++ " $ " ++ m.textInputValue
                     ++ "\n" }) := by
  constructor
  · intro env m arg hf ht hs
    have h1 : ShellModel.executeCommand env { m with textInputValue := "" } m.textInputValue
        = some (errRender ("cd: " ++ arg ++ ": No such directory"), "") := by
      simp only [ShellModel.executeCommand, if_neg ht, hf, hs]
      simp
    simp only [ShellModel.Update, h1, ne_eq, not_true_eq_false, not_false_eq_true,
      reduceIte, String.append_assoc]
  · intro env m hf ht habs hs
    have h1 : ShellModel.executeCommand env { m with textInputValue := "" } m.textInputValue
        = some ("", env.homeDir) := by
      simp [ShellModel.executeCommand, if_neg ht, hf, habs, hs]
    have hne := isAbs_ne_empty env.homeDir habs
    simp only [ShellModel.Update, h1, ne_eq, hne, not_false_eq_true, reduceIte,
      String.append_empty, String.append_assoc]

/-- C8 instantiated: in `envDemo`, `cd /nope` (a nonexistent path) from
`/work` keeps the directory and appends the single error line, and a bare
`cd` changes into the existing absolute home directory `/home/u`. -/
theorem c8_cd_missing_dir_and_home_resolution_witness :
    (goFields shellCdMissing.textInputValue = ["cd", "/nope"]
      ∧ goTrimSpace shellCdMissing.textInputValue ≠ ""
      ∧ envDemo.statIsDir
          (if isAbs "/nope" then "/nope" else joinPath shellCdMissing.currentDir "/nope")
          = false
      ∧ ShellModel.Update envDemo shellCdMissing (TeaMsg.key "enter")
        = some { shellCdMissing with
                   textInputValue := ""
                   viewportContent := shellCdMissing.viewportContent ++ "\n"
                     ++ pathRender (baseName shellCdMissing.currentDir) ++ " $ "
                     ++ shellCdMissing.textInputValue
                     ++ "\n" ++ errRender ("cd: " ++ "/nope" ++ ": No such directory") })
    ∧ (goFields shellCdHome.textInputValue = ["cd"]
      ∧ goTrimSpace shellCdHome.textInputValue ≠ ""
      ∧ isAbs envDemo.homeDir = true
      ∧ envDemo.statIsDir envDemo.homeDir = true
      ∧ ShellModel.Update envDemo shellCdHome (TeaMsg.key "enter")
        = some { shellCdHome with
                   textInputValue := ""
                   currentDir := envDemo.homeDir
                   viewportContent := shellCdHome.viewportContent ++ "\n"
                     ++ pathRender (baseName envDemo.homeDir) ++ " $ "
                     ++ shellCdHome.textInputValue ++ "\n" }) :=
  ⟨⟨by decide, by decide, by decide,
    c8_cd_missing_dir_and_home_resolution.1 envDemo shellCdMissing "/nope"
      (by decide) (by decide) (by decide)⟩,
   ⟨by decide, by decide, by decide, by decide,
    c8_cd_missing_dir_and_home_resolution.2 envDemo shellCdHome
      (by decide) (by decide) (by decide) (by decide)⟩⟩

/-- Iterating tab-advance events through the Composer: each step feeds the
updated model into the next event (the unreachable pane-panic fallback
keeps the previous model). -/
def tabIter (env : Env) (m : UIModel) : Nat → UIModel
  | 0 => m
  | n + 1 =>
    match UIModel.Update env (tabIter env m n) (TeaMsg.key "tab") with
    | some r => r.1
    | none => tabIter env m n

/-- A single tab-advance rotates the active index modulo the pane count and
issues no command. -/
theorem update_tab_eq (env : Env) (m : UIModel) :
    UIModel.Update env m (TeaMsg.key "tab")
      = some ({ m with state := (m.state + 1) % m.tabs.length }, none) := rfl

/-- All fields of the iterated-tab state: panes and tabs never change, and
after at least one event the index is the initial index plus the event
count, modulo the pane count. -/
theorem tabIter_fields (env : Env) (m : UIModel) (n : Nat) :
    (tabIter env m n).tabs = m.tabs
    ∧ (tabIter env m n).shell = m.shell
    ∧ (tabIter env m n).jira = m.jira
    ∧ (tabIter env m n).github = m.github
    ∧ (tabIter env m n).chat = m.chat
    ∧ (tabIter env m (n + 1)).state = (m.state + (n + 1)) % m.tabs.length := by
  induction n with
  | zero => exact ⟨rfl, rfl, rfl, rfl, rfl, rfl⟩
  | succ k ih =>
    obtain ⟨htabs, hshell, hjira, hgithub, hchat, hstate⟩ := ih
    have hstep : ∀ j : Nat, tabIter env m (j + 1)
        = { tabIter env m j with
              state := ((tabIter env m j).state + 1) % (tabIter env m j).tabs.length } := by
      intro j
      simp only [tabIter, update_tab_eq]
    have htabs1 : (tabIter env m (k + 1)).tabs = m.tabs := by
      rw [hstep k]
      exact htabs
    refine ⟨htabs1, ?_, ?_, ?_, ?_, ?_⟩
    · rw [hstep k]; exact hshell
    · rw [hstep k]; exact hjira
    · rw [hstep k]; exact hgithub
    · rw [hstep k]; exact hchat
    · rw [hstep (k + 1), htabs1, hstate, Nat.mod_add_mod]
      rfl

/-- C9: for every sequence of tab-advance events the active-pane index
advances by one per event, modulo the pane count — after `n + 1` events
from any state it equals `(initial + n + 1) % paneCount`, so it wraps to
zero after the last pane — no pane model ever receives the tab event (all
four pane states are untouched), and from the freshly constructed four-pane
dashboard, four tab events return the index to zero. -/
theorem c9_tab_cycles_mod_pane_count (env : Env) (m : UIModel) (n : Nat) :
    (tabIter env m (n + 1)).state = (m.state + (n + 1)) % m.tabs.length
    ∧ (tabIter env m n).shell = m.shell
    ∧ (tabIter env m n).jira = m.jira
    ∧ (tabIter env m n).github = m.github
    ∧ (tabIter env m n).chat = m.chat
    ∧ (tabIter envDemo (UIModel.New envDemo) 4).state = 0 := by
  obtain ⟨-, h2, h3, h4, h5, h6⟩ := tabIter_fields env m n
  exact ⟨h6, h2, h3, h4, h5, by decide⟩

/-- C1 amended claim instantiated: the Jira fetch completion from the
initial (Shell-active) dashboard is routed to the active pane slot only. -/
theorem c1_amended_message_routed_to_active_pane_witness :
    UIModel.Update envDemo (UIModel.New envDemo) (TeaMsg.jiraIssuesFetched [])
      = some ({ UIModel.New envDemo with
                  jira := if (UIModel.New envDemo).state = 1
                    then (UIModel.New envDemo).jira.Update (TeaMsg.jiraIssuesFetched [])
                    else (UIModel.New envDemo).jira }, none) :=
  (c1_amended_message_routed_to_active_pane envDemo (UIModel.New envDemo)
    [] [] "" "" "" "").1

/-- C4 amended claim instantiated at a 100×40 resize of the fresh
dashboard. -/
theorem c4_amended_resize_updates_sizes_witness :
    UIModel.Update envDemo (UIModel.New envDemo) (TeaMsg.windowSize 100 40)
      = some ({ UIModel.New envDemo with
                  width := 100
                  height := 40
                  shell := if (UIModel.New envDemo).state = 0 then
                      { (UIModel.New envDemo).shell with
                          viewportWidth := 100, textInputWidth := 100,
                          viewportHeight := 40 - 3 }
                    else (UIModel.New envDemo).shell
                  jira := { (UIModel.New envDemo).jira with
                              width := 100,
                              height := if (UIModel.New envDemo).state = 1
                                then 40 else 40 - 5 }
                  github := { (UIModel.New envDemo).github with
                                width := 100,
                                height := if (UIModel.New envDemo).state = 2
                                  then 40 else 40 - 5 }
                  chat := { (UIModel.New envDemo).chat with
                              taWidth := 100, vpWidth := 100,
                              vpHeight := 40 - 5 - (UIModel.New envDemo).chat.taHeight - 2 } },
              none) :=
  c4_amended_resize_updates_sizes envDemo (UIModel.New envDemo) 100 40

/-- C6 amended claim instantiated at the two freshly constructed panes. -/
theorem c6_amended_empty_fetch_rendering_witness :
    (JiraModel.Update JiraModel.New (TeaMsg.jiraIssuesFetched [])).items
      = [ListItem.mk "No issues found" "You have no assigned issues."]
    ∧ (GithubModel.Update GithubModel.New (TeaMsg.githubIssuesFetched [])).items = [] :=
  c6_amended_empty_fetch_rendering JiraModel.New GithubModel.New

/-- C9 instantiated: three tab events from the fresh dashboard land on
index `(0 + 3) % 4`, no pane state changes. -/
theorem c9_tab_cycles_mod_pane_count_witness :
    (tabIter envDemo (UIModel.New envDemo) (2 + 1)).state
      = ((UIModel.New envDemo).state + (2 + 1)) % (UIModel.New envDemo).tabs.length
    ∧ (tabIter envDemo (UIModel.New envDemo) 2).shell = (UIModel.New envDemo).shell
    ∧ (tabIter envDemo (UIModel.New envDemo) 2).jira = (UIModel.New envDemo).jira
    ∧ (tabIter envDemo (UIModel.New envDemo) 2).github = (UIModel.New envDemo).github
    ∧ (tabIter envDemo (UIModel.New envDemo) 2).chat = (UIModel.New envDemo).chat
    ∧ (tabIter envDemo (UIModel.New envDemo) 4).state = 0 :=
  c9_tab_cycles_mod_pane_count envDemo (UIModel.New envDemo) 2

end TermiFlow
